import Mathlib

/-!
Shallow embedding of the authentication and authorization core of the
farmManager4U backend (Go, GORM, golang-jwt/v5), together with proofs of
the specification claims about it.

Modelling conventions:
* machine integers are `Nat`/`Int`; time instants are `Int` (unix seconds);
* Go `float64` request/record fields are modelled as `Rat` (the claims only
  compare them with `0`);
* the HMAC signature is modelled symbolically: a `Mac` records the algorithm,
  secret and payload it was computed over, and verification compares `Mac`
  values, so two signatures agree exactly when algorithm, secret and payload
  agree (the ideal-MAC abstraction);
* bcrypt is modelled symbolically by `Hash`: a hash records its salt and the
  plaintext it was derived from, and comparison ignores the salt, matching
  `bcrypt.CompareHashAndPassword`; the Go zero value `""` of the stored
  password column is `Hash.empty`, on which bcrypt comparison errors;
* the GORM-backed store is a `DB` of lists ordered by primary key; the
  soft-delete scope of `gorm.DeletedAt` makes every query filter rows with
  `deletedAt ≠ none`; `Save` updates the row with the matching numeric
  primary key; `Create` appends a fresh row;
* sources of nondeterminism in the Go code (fresh primary keys, UUIDs,
  bcrypt salts, the OTP random seed, `time.Now()`) are passed as explicit
  parameters.
-/

namespace Farm4U

/-- JWT signing algorithms relevant to `GenerateJWT`/`ValidateJWT`
(`jwt.SigningMethodHS256` is used for issuance; validation accepts any
`*jwt.SigningMethodHMAC` and rejects the rest). -/
inductive Alg
  | HS256
  | HS384
  | HS512
  | RS256
  | ES256
  | algNone
deriving DecidableEq, Repr

/-- Whether the method is in the HMAC family (`*jwt.SigningMethodHMAC`). -/
def Alg.isHMAC : Alg → Bool
  | .HS256 => true
  | .HS384 => true
  | .HS512 => true
  | _ => false

/-- `jwt.RegisteredClaims` as populated by `GenerateJWT`. -/
structure RegisteredClaims where
  expiresAt : Int
  issuedAt : Int
  notBefore : Int
  issuer : String
  subject : String
deriving DecidableEq, Repr

/-- The `Claims` struct of cmd/api/jwt.go. -/
structure Claims where
  userID : Int
  email : String
  role : String
  firstName : String
  lastName : String
  registered : RegisteredClaims
deriving DecidableEq, Repr

/-- Symbolic HMAC signature: records what it was computed over.  Two `Mac`s
are equal exactly when algorithm, secret and signed payload agree. -/
structure Mac where
  alg : Alg
  secret : String
  payload : Claims
deriving DecidableEq, Repr

/-- A parsed three-part token: header algorithm, claims, signature. -/
structure Token where
  alg : Alg
  claims : Claims
  sig : Mac
deriving DecidableEq, Repr

/-- A token string on the wire either fails to parse or carries a token. -/
inductive TokenWire
  | malformed
  | wellFormed (t : Token)
deriving DecidableEq, Repr

/-- `os.Getenv("JWT_SECRET")` with the hardcoded fallback used when the
variable is unset or empty (Go's `Getenv` returns `""` in both cases). -/
def resolveSecret (jwtSecretEnv : String) : String :=
  if jwtSecretEnv = "" then "your-super-secret-jwt-key" else jwtSecretEnv

/-- The expiration-hours configuration: `JWT_EXPIRATION_HOURS` parsed with
`strconv.Atoi`; `none` stands for unset-or-unparsable, in which case the
24-hour default is kept. -/
def resolveExpirationHours (jwtExpirationEnv : Option Int) : Int :=
  match jwtExpirationEnv with
  | some hours => hours
  | none => 24

/-- `GenerateJWT` (cmd/api/jwt.go): builds the claim set from the user and
signs it with HS256 under the resolved secret. `FirstName`/`LastName` of the
`Claims` struct are left at their zero value. -/
def generateJWT (jwtSecretEnv : String) (jwtExpirationEnv : Option Int)
    (userID : Nat) (userEmail userRole : String) (now : Int) : Token :=
  let jwtSecret := resolveSecret jwtSecretEnv
  let expirationHours := resolveExpirationHours jwtExpirationEnv
  let claims : Claims :=
    { userID := (userID : Int)
      email := userEmail
      role := userRole
      firstName := ""
      lastName := ""
      registered :=
        { expiresAt := now + 3600 * expirationHours
          issuedAt := now
          notBefore := now
          issuer := "farm4u"
          subject := toString userID } }
  { alg := .HS256
    claims := claims
    sig := { alg := .HS256, secret := jwtSecret, payload := claims } }

/-- The default temporal checks of the golang-jwt/v5 validator: `exp` must be
strictly in the future and `nbf` must not be in the future (`iat` is not
verified by default). -/
def temporallyValid (c : Claims) (now : Int) : Bool :=
  decide (c.registered.notBefore ≤ now) && decide (now < c.registered.expiresAt)

/-- `ValidateJWT` (cmd/api/jwt.go): parse, reject non-HMAC signing methods in
the keyfunc, verify the signature against the resolved secret, then run the
default claims validation; on success return the embedded claims. -/
def validateJWT (jwtSecretEnv : String) (w : TokenWire) (now : Int) :
    Except String Claims :=
  let jwtSecret := resolveSecret jwtSecretEnv
  match w with
  | .malformed => .error "token is malformed"
  | .wellFormed t =>
    if !t.alg.isHMAC then .error "invalid signing method"
    else if t.sig ≠ ({ alg := t.alg, secret := jwtSecret, payload := t.claims } : Mac) then
      .error "signature is invalid"
    else if !temporallyValid t.claims now then .error "token has invalid claims"
    else .ok t.claims

/-- C1: For every account, validating a token immediately after issuing it for
that account, with the same configured secret and at any instant inside the
token's validity window, succeeds and returns claims whose user id, email and
role equal the account's. -/
theorem validate_issue_roundtrip (secretEnv : String) (expEnv : Option Int)
    (uid : Nat) (email role : String) (issuedAt t : Int)
    (h1 : issuedAt ≤ t)
    (h2 : t < issuedAt + 3600 * resolveExpirationHours expEnv) :
    validateJWT secretEnv
        (.wellFormed (generateJWT secretEnv expEnv uid email role issuedAt)) t =
      .ok ((generateJWT secretEnv expEnv uid email role issuedAt).claims) ∧
    (generateJWT secretEnv expEnv uid email role issuedAt).claims.userID = (uid : Int) ∧
    (generateJWT secretEnv expEnv uid email role issuedAt).claims.email = email ∧
    (generateJWT secretEnv expEnv uid email role issuedAt).claims.role = role := by
  refine ⟨?_, rfl, rfl, rfl⟩
  simp [validateJWT, generateJWT, Alg.isHMAC, temporallyValid, h1, h2]

/-- C1 witness: a concrete issue/validate round trip. -/
theorem validate_issue_roundtrip_witness :
    validateJWT "s3cret"
        (.wellFormed (generateJWT "s3cret" none 7 "a@x.com" "Farmer" 0)) 10 =
      .ok ((generateJWT "s3cret" none 7 "a@x.com" "Farmer" 0).claims) ∧
    (generateJWT "s3cret" none 7 "a@x.com" "Farmer" 0).claims.userID = 7 ∧
    (generateJWT "s3cret" none 7 "a@x.com" "Farmer" 0).claims.email = "a@x.com" ∧
    (generateJWT "s3cret" none 7 "a@x.com" "Farmer" 0).claims.role = "Farmer" := by
  have h := validate_issue_roundtrip "s3cret" none 7 "a@x.com" "Farmer" 0 10
    (by decide) (by decide)
  exact h

/-- C2: `ValidateJWT` fails — returning an error and no claim set — whenever
the token is malformed, its signing algorithm is outside the HMAC family, its
signature was not produced with the configured secret, or the validation
instant lies outside the not-before/expires-at window; in particular a token
whose expires-at is in the past is rejected regardless of the signature. -/
theorem validateJWT_rejects_invalid (secretEnv : String) (w : TokenWire) (now : Int)
    (h : w = .malformed ∨
      ∃ t, w = .wellFormed t ∧
        (t.alg.isHMAC = false ∨
         t.sig.secret ≠ resolveSecret secretEnv ∨
         now < t.claims.registered.notBefore ∨
         t.claims.registered.expiresAt ≤ now)) :
    ∃ e, validateJWT secretEnv w now = .error e := by
  rcases h with h | ⟨t, rfl, hbad⟩
  · subst h
    exact ⟨"token is malformed", rfl⟩
  · unfold validateJWT
    by_cases halg : t.alg.isHMAC
    · by_cases hsig : t.sig = Mac.mk t.alg (resolveSecret secretEnv) t.claims
      · rcases hbad with hbad | hbad | hbad | hbad
        · simp [halg] at hbad
        · rw [hsig] at hbad
          simp at hbad
        · refine ⟨"token has invalid claims", ?_⟩
          simp only [halg, Bool.not_true, if_false, hsig]
          have : temporallyValid t.claims now = false := by
            simp [temporallyValid]
            omega
          simp [this]
        · refine ⟨"token has invalid claims", ?_⟩
          simp only [halg, Bool.not_true, if_false, hsig]
          have : temporallyValid t.claims now = false := by
            simp [temporallyValid]
            omega
          simp [this]
      · refine ⟨"signature is invalid", ?_⟩
        simp [halg, hsig]
    · refine ⟨"invalid signing method", ?_⟩
      simp [halg]

/-- C2 witness: a token issued with a 1-hour lifetime at time 0 is rejected at
time 3600 (its expiry), even though its signature is valid. -/
theorem validateJWT_rejects_invalid_witness :
    ∃ e, validateJWT "s3cret"
        (.wellFormed (generateJWT "s3cret" (some 1) 7 "a@x.com" "Farmer" 0)) 3600 =
      .error e := by
  refine validateJWT_rejects_invalid "s3cret" _ 3600 ?_
  refine Or.inr ⟨_, rfl, Or.inr (Or.inr (Or.inr ?_))⟩
  decide

/-! ## Credential hashing (bcrypt, modelled symbolically) -/

/-- A stored credential: either the Go zero value `""` of the password column
(`Hash.empty`) or a bcrypt hash, recorded symbolically as salt + plaintext. -/
inductive Hash
  | empty
  | bcrypt (salt : Nat) (plaintext : String)
deriving DecidableEq, Repr

/-- `HashPassword` (data/models.go): `bcrypt.GenerateFromPassword` with a
fresh salt. -/
def hashPassword (salt : Nat) (password : String) : Hash := .bcrypt salt password

/-- `PasswordMatches` (data/models.go): `bcrypt.CompareHashAndPassword`;
mismatch yields `ok false`, a malformed stored hash (such as the empty
string) yields an error, which the login handler surfaces as HTTP 500. -/
def passwordMatches (stored : Hash) (plainText : String) : Except String Bool :=
  match stored with
  | .empty => .error "hashedSecret too short to be a bcrypted password"
  | .bcrypt _ pw => .ok (decide (pw = plainText))

/-! ## Records (data/models.go, data/livestock.go, farm/crop/employee models) -/

/-- The `User` record. `tempPassword` is the GORM-ignored plaintext carrier;
`otpExpiresAt = 0` stands for the zero `time.Time`. -/
structure User where
  id : Nat
  userId : String
  firstName : String
  lastName : String
  email : String
  password : Hash
  tempPassword : String
  role : String
  phoneNumber : String
  address : String
  active : Bool
  deletedAt : Option Int
  otpCode : String
  otpExpiresAt : Int
deriving DecidableEq, Repr

/-- The `Farm` record; `userId` is the owning account's `UserID`. -/
structure Farm where
  id : Nat
  farmId : String
  name : String
  description : String
  location : String
  size : Rat
  farmType : String
  status : String
  userId : String
  deletedAt : Option Int
deriving DecidableEq, Repr

/-- The `Crop` record; `farmId` is the owning farm's `FarmID`. -/
structure Crop where
  id : Nat
  cropId : String
  farmId : String
  name : String
  plantingDate : Option Int
  harvestDate : Option Int
  quantity : Rat
  status : String
  notes : String
  deletedAt : Option Int
deriving DecidableEq, Repr

/-- The `Livestock` record (`animalType` embeds the Go field `Type`). -/
structure Livestock where
  id : Nat
  livestockId : String
  farmId : String
  animalType : String
  count : Int
  acquisitionDate : Option Int
  healthStatus : String
  notes : String
  deletedAt : Option Int
deriving DecidableEq, Repr

/-- The `Employee` record; `userId` is the optional weak link to a `User`. -/
structure Employee where
  id : Nat
  employeeId : String
  userId : Option String
  farmId : String
  firstName : String
  lastName : String
  position : String
  salary : Rat
  hireDate : Option Int
  contactInfo : String
  status : String
  deletedAt : Option Int
deriving DecidableEq, Repr

/-- The GORM-backed store: one table per entity, rows in primary-key order. -/
structure DB where
  users : List User
  farms : List Farm
  crops : List Crop
  livestock : List Livestock
  employees : List Employee
deriving DecidableEq, Repr

/-! ## Store queries.  The `gorm.DeletedAt` soft-delete scope makes every
query skip rows whose deletion marker is set; `First` returns the first
matching row. -/

/-- `UserRepo.GetByEmail`. -/
def DB.getUserByEmail (db : DB) (email : String) : Option User :=
  db.users.find? fun u => decide (u.deletedAt = none ∧ u.email = email)

/-- `UserRepo.GetOne` (lookup by numeric primary key). -/
def DB.getUserByID (db : DB) (id : Nat) : Option User :=
  db.users.find? fun u => decide (u.deletedAt = none ∧ u.id = id)

/-- `FarmRepo.GetByFarmID` (lookup by public UUID). -/
def DB.getFarmByFarmID (db : DB) (farmID : String) : Option Farm :=
  db.farms.find? fun f => decide (f.deletedAt = none ∧ f.farmId = farmID)

/-- `CropRepo.GetByCropID`. -/
def DB.getCropByCropID (db : DB) (cropID : String) : Option Crop :=
  db.crops.find? fun c => decide (c.deletedAt = none ∧ c.cropId = cropID)

/-- `LivestockRepo.GetByLivestockID`. -/
def DB.getLivestockByLivestockID (db : DB) (livestockID : String) : Option Livestock :=
  db.livestock.find? fun l => decide (l.deletedAt = none ∧ l.livestockId = livestockID)

/-- `EmployeeRepo.GetByEmployeeID`. -/
def DB.getEmployeeByEmployeeID (db : DB) (employeeID : String) : Option Employee :=
  db.employees.find? fun e => decide (e.deletedAt = none ∧ e.employeeId = employeeID)

/-- `DB.Save(&user)`: update-in-place of the row with the same numeric
primary key. -/
def DB.saveUser (db : DB) (u : User) : DB :=
  { db with users := db.users.map fun v => if v.id = u.id then u else v }

/-- `DB.Save(&farm)`. -/
def DB.saveFarm (db : DB) (f : Farm) : DB :=
  { db with farms := db.farms.map fun g => if g.id = f.id then f else g }

/-- `CropRepo.DeleteByID`: GORM soft delete — set the deletion marker on the
not-yet-deleted row with that primary key; no row is removed. -/
def DB.cropDeleteByID (db : DB) (id : Nat) (now : Int) : DB :=
  { db with crops := db.crops.map fun c =>
      if c.id = id ∧ c.deletedAt = none then { c with deletedAt := some now } else c }

/-- `LivestockRepo.DeleteByID` (data/livestock.go): same soft-delete shape. -/
def DB.livestockDeleteByID (db : DB) (id : Nat) (now : Int) : DB :=
  { db with livestock := db.livestock.map fun l =>
      if l.id = id ∧ l.deletedAt = none then { l with deletedAt := some now } else l }

/-! ## OTP password-reset repository operations (data/models.go) -/

/-- The random 6-digit code `100000 + Intn(900000)`, with the generator's
randomness supplied as `seed`. -/
def generateOTP (seed : Nat) : String := toString (100000 + seed % 900000)

/-- The account row as stored by `GenerateAndSaveOTP`: fresh code, expiry 15
minutes after `now`. -/
def otpStamped (user : User) (seed : Nat) (now : Int) : User :=
  { user with otpCode := generateOTP seed, otpExpiresAt := now + 15 * 60 }

/-- `GenerateAndSaveOTP`: look up the account, store a fresh code with a
15-minute expiry, return the code. -/
def DB.generateAndSaveOTP (db : DB) (email : String) (seed : Nat) (now : Int) :
    Except String (String × DB) :=
  match db.getUserByEmail email with
  | none => .error "record not found"
  | some user => .ok (generateOTP seed, db.saveUser (otpStamped user seed now))

/-- `VerifyOTP`: `ok false` on a code mismatch; an error when `now` is
strictly after the stored expiry (`time.Now().After(expiry)`). -/
def DB.verifyOTP (db : DB) (email otp : String) (now : Int) : Except String Bool :=
  match db.getUserByEmail email with
  | none => .error "record not found"
  | some user =>
    if user.otpCode ≠ otp then .ok false
    else if user.otpExpiresAt < now then .error "OTP has expired"
    else .ok true

/-- The account row as stored by a successful `ResetPasswordWithOTP`: the
credential hash replaced, the code cleared. -/
def resetStamped (user : User) (salt : Nat) (newPassword : String) : User :=
  { user with password := hashPassword salt newPassword, otpCode := "" }

/-- `ResetPasswordWithOTP`: verify the code, then replace the credential hash
with the hash of the new credential and clear the stored code. -/
def DB.resetPasswordWithOTP (db : DB) (email otp newPassword : String)
    (salt : Nat) (now : Int) : Except String DB :=
  match db.verifyOTP email otp now with
  | .error e => .error e
  | .ok false => .error "invalid or expired OTP"
  | .ok true =>
    match db.getUserByEmail email with
    | none => .error "record not found"
    | some user => .ok (db.saveUser (resetStamped user salt newPassword))

/-! ## HTTP handler layer (cmd/api).  Each handler is embedded as a function
from the store and the request data (the `X-User-Email` header stands for the
identity propagated by the JWT middleware) to an `Except ApiError` outcome;
handlers that write also return the resulting store. -/

/-- `errorJSON` payload: client-facing message plus HTTP status. -/
structure ApiError where
  message : String
  status : Nat
deriving DecidableEq, Repr

/-- The `success`/`message` part of `AuthResponse`. -/
structure AuthResponse where
  success : Bool
  message : String
deriving DecidableEq, Repr

/-- `SignupRequest` (cmd/api/jwt.go). -/
structure SignupRequest where
  firstName : String
  lastName : String
  email : String
  password : String
  role : String
  phoneNumber : String
  address : String
deriving DecidableEq, Repr

/-- `LoginRequest` (cmd/api/jwt.go). -/
structure LoginRequest where
  email : String
  password : String
deriving DecidableEq, Repr

/-- `FarmRequest` (cmd/api/farm.go). -/
structure FarmRequest where
  name : String
  description : String
  location : String
  size : Rat
  farmType : String
  status : String
deriving DecidableEq, Repr

/-- `EmployeeRequest` (employee handlers). -/
structure EmployeeRequest where
  userId : Option String
  firstName : String
  lastName : String
  position : String
  salary : Rat
  hireDate : Option Int
  contactInfo : String
  status : String
deriving DecidableEq, Repr

/-- `SignupHandler`: validate fields, reject an already-registered email with
HTTP 409 leaving the store untouched, otherwise insert the user with the
hashed password (`role` falls back to the column default `Farmer` for the
zero value) and respond with the sensitive fields cleared.
`signupUserOf` is the record the handler builds and inserts. -/
def signupUserOf (req : SignupRequest) (freshId : Nat) (freshUserId : String)
    (salt : Nat) : User :=
  { id := freshId
    userId := freshUserId
    firstName := req.firstName
    lastName := req.lastName
    email := req.email
    password := hashPassword salt req.password
    tempPassword := req.password
    role := if req.role = "" then "Farmer" else req.role
    phoneNumber := req.phoneNumber
    address := req.address
    active := true
    deletedAt := none
    otpCode := ""
    otpExpiresAt := 0 }

/-- The body of `SignupHandler` proper: validate, reject duplicates, insert
`signupUserOf`, respond with the sensitive fields cleared. -/
def signupHandler (db : DB) (req : SignupRequest) (freshId : Nat)
    (freshUserId : String) (salt : Nat) : Except ApiError User × DB :=
  if req.firstName = "" ∨ req.lastName = "" ∨ req.email = "" ∨ req.password = "" then
    (.error ⟨"missing required fields", 400⟩, db)
  else
    match db.getUserByEmail req.email with
    | some _ => (.error ⟨"user with this email already exists", 409⟩, db)
    | none =>
      let stored : User := signupUserOf req freshId freshUserId salt
      (.ok { stored with password := .empty, tempPassword := "" },
        { db with users := db.users ++ [stored] })

/-- `LoginHandler`: a missing account and a wrong password both yield the
identical `invalid email or password` 401; an inactive account yields the
distinct `account is deactivated` 401; success issues a token. -/
def loginHandler (db : DB) (req : LoginRequest) (secretEnv : String)
    (expEnv : Option Int) (now : Int) : Except ApiError (User × Token) :=
  if req.email = "" ∨ req.password = "" then
    .error ⟨"email and password are required", 400⟩
  else
    match db.getUserByEmail req.email with
    | none => .error ⟨"invalid email or password", 401⟩
    | some user =>
      if !user.active then .error ⟨"account is deactivated", 401⟩
      else
        match passwordMatches user.password req.password with
        | .error _ => .error ⟨"internal server error", 500⟩
        | .ok false => .error ⟨"invalid email or password", 401⟩
        | .ok true =>
          .ok ({ user with password := .empty, tempPassword := "" },
            generateJWT secretEnv expEnv user.id user.email user.role now)

/-- `ForgotPasswordHandler`: an unregistered email gets a success response
with a hedged message; a registered email gets an OTP saved on the account
and a success response with a different message. -/
def forgotPasswordHandler (db : DB) (email : String) (seed : Nat) (now : Int) :
    Except ApiError AuthResponse × DB :=
  if email = "" then (.error ⟨"email is required", 400⟩, db)
  else
    match db.getUserByEmail email with
    | none =>
      (.ok ⟨true, "If the email exists, a password reset code has been sent"⟩, db)
    | some _ =>
      match db.generateAndSaveOTP email seed now with
      | .error _ => (.error ⟨"failed to generate reset code", 500⟩, db)
      | .ok (_, db') =>
        (.ok ⟨true, "Password reset code has been sent to your email"⟩, db')

/-- `ResetPasswordHandler`: any repository failure is surfaced uniformly as
the 400 `invalid or expired reset code` error. -/
def resetPasswordHandler (db : DB) (email otp newPassword : String)
    (salt : Nat) (now : Int) : Except ApiError AuthResponse × DB :=
  if email = "" ∨ otp = "" ∨ newPassword = "" then
    (.error ⟨"email, OTP, and new password are required", 400⟩, db)
  else
    match db.resetPasswordWithOTP email otp newPassword salt now with
    | .error _ => (.error ⟨"invalid or expired reset code", 400⟩, db)
    | .ok db' => (.ok ⟨true, "Password reset successfully"⟩, db')

/-- `GetFarmHandler`: absent farm is a 404; a missing caller account or a
foreign owner is the 403 access-denied error. -/
def getFarmHandler (db : DB) (farmID userEmail : String) : Except ApiError Farm :=
  if farmID = "" then .error ⟨"farm ID is required", 400⟩
  else if userEmail = "" then .error ⟨"user not authenticated", 401⟩
  else
    match db.getFarmByFarmID farmID with
    | none => .error ⟨"farm not found", 404⟩
    | some farm =>
      match db.getUserByEmail userEmail with
      | none => .error ⟨"access denied: farm does not belong to user", 403⟩
      | some user =>
        if farm.userId ≠ user.userId then
          .error ⟨"access denied: farm does not belong to user", 403⟩
        else .ok farm

/-- `GetCropHandler`: absent crop is a 404; missing caller account is a 404;
an absent owning farm or a foreign owner is the 403 access-denied error. -/
def getCropHandler (db : DB) (cropID userEmail : String) : Except ApiError Crop :=
  if cropID = "" then .error ⟨"crop ID is required", 400⟩
  else if userEmail = "" then .error ⟨"user not authenticated", 401⟩
  else
    match db.getCropByCropID cropID with
    | none => .error ⟨"crop not found", 404⟩
    | some crop =>
      match db.getUserByEmail userEmail with
      | none => .error ⟨"user not found", 404⟩
      | some user =>
        match db.getFarmByFarmID crop.farmId with
        | none => .error ⟨"access denied: crop does not belong to user's farm", 403⟩
        | some farm =>
          if farm.userId ≠ user.userId then
            .error ⟨"access denied: crop does not belong to user's farm", 403⟩
          else .ok crop

/-- `GetLivestockHandler`: same guard shape as the crop handler. -/
def getLivestockHandler (db : DB) (livestockID userEmail : String) :
    Except ApiError Livestock :=
  if livestockID = "" then .error ⟨"livestock ID is required", 400⟩
  else if userEmail = "" then .error ⟨"user not authenticated", 401⟩
  else
    match db.getLivestockByLivestockID livestockID with
    | none => .error ⟨"livestock not found", 404⟩
    | some l =>
      match db.getUserByEmail userEmail with
      | none => .error ⟨"user not found", 404⟩
      | some user =>
        match db.getFarmByFarmID l.farmId with
        | none => .error ⟨"access denied: livestock does not belong to user's farm", 403⟩
        | some farm =>
          if farm.userId ≠ user.userId then
            .error ⟨"access denied: livestock does not belong to user's farm", 403⟩
          else .ok l

/-- `GetEmployeeHandler`: same guard shape as the crop handler. -/
def getEmployeeHandler (db : DB) (employeeID userEmail : String) :
    Except ApiError Employee :=
  if employeeID = "" then .error ⟨"employee ID is required", 400⟩
  else if userEmail = "" then .error ⟨"user not authenticated", 401⟩
  else
    match db.getEmployeeByEmployeeID employeeID with
    | none => .error ⟨"employee not found", 404⟩
    | some emp =>
      match db.getUserByEmail userEmail with
      | none => .error ⟨"user not found", 404⟩
      | some user =>
        match db.getFarmByFarmID emp.farmId with
        | none => .error ⟨"access denied: employee does not belong to user's farm", 403⟩
        | some farm =>
          if farm.userId ≠ user.userId then
            .error ⟨"access denied: employee does not belong to user's farm", 403⟩
          else .ok emp

/-- `CreateEmployeeHandler`: the creation special case of the guard — resolve
the caller, resolve the target farm directly, and reject with the single
combined 403 `farm not found or access denied` error both when the farm is
absent and when it has a foreign owner. -/
def createEmployeeHandler (db : DB) (req : EmployeeRequest)
    (farmID userEmail : String) (freshId : Nat) (freshEmployeeId : String) :
    Except ApiError Employee × DB :=
  if req.firstName = "" ∨ req.lastName = "" ∨ req.position = "" then
    (.error ⟨"firstName, lastName, and position are required", 400⟩, db)
  else if farmID = "" then (.error ⟨"farm ID is required", 400⟩, db)
  else if userEmail = "" then (.error ⟨"user not authenticated", 401⟩, db)
  else
    match db.getUserByEmail userEmail with
    | none => (.error ⟨"user not found", 404⟩, db)
    | some user =>
      match db.getFarmByFarmID farmID with
      | none => (.error ⟨"farm not found or access denied", 403⟩, db)
      | some farm =>
        if farm.userId ≠ user.userId then
          (.error ⟨"farm not found or access denied", 403⟩, db)
        else
          let resolvedLink : Except ApiError (Option String) :=
            match req.userId with
            | some uid =>
              if uid ≠ "" then
                match db.getUserByEmail uid with
                | none => .error ⟨"linked user not found", 400⟩
                | some linked => .ok (some linked.userId)
              else .ok (some uid)
            | none => .ok none
          match resolvedLink with
          | .error e => (.error e, db)
          | .ok link =>
            let employee : Employee :=
              { id := freshId
                employeeId := freshEmployeeId
                userId := link
                farmId := farmID
                firstName := req.firstName
                lastName := req.lastName
                position := req.position
                salary := req.salary
                hireDate := req.hireDate
                contactInfo := req.contactInfo
                status := if req.status = "" then "Active" else req.status
                deletedAt := none }
            (.ok employee, { db with employees := db.employees ++ [employee] })

/-- The field-by-field conditional overwrite of `UpdateFarmHandler`: each Go
`if` guards one distinct field, so the sequential assignments amount to this
single record update. -/
def applyFarmUpdate (req : FarmRequest) (f : Farm) : Farm :=
  { f with
    name := if req.name ≠ "" then req.name else f.name
    description := if req.description ≠ "" then req.description else f.description
    location := if req.location ≠ "" then req.location else f.location
    size := if 0 < req.size then req.size else f.size
    farmType := if req.farmType ≠ "" then req.farmType else f.farmType
    status := if req.status ≠ "" then req.status else f.status }

/-- `UpdateFarmHandler`: guard as in `GetFarmHandler`, then overwrite only the
provided fields and save. -/
def updateFarmHandler (db : DB) (req : FarmRequest) (farmID userEmail : String) :
    Except ApiError Farm × DB :=
  if farmID = "" then (.error ⟨"farm ID is required", 400⟩, db)
  else if userEmail = "" then (.error ⟨"user not authenticated", 401⟩, db)
  else
    match db.getFarmByFarmID farmID with
    | none => (.error ⟨"farm not found", 404⟩, db)
    | some existingFarm =>
      match db.getUserByEmail userEmail with
      | none => (.error ⟨"access denied: farm does not belong to user", 403⟩, db)
      | some user =>
        if existingFarm.userId ≠ user.userId then
          (.error ⟨"access denied: farm does not belong to user", 403⟩, db)
        else
          let updated := applyFarmUpdate req existingFarm
          (.ok updated, db.saveFarm updated)

/-! ## Store lemmas: how the `First`-style queries interact with `Save` and
`Create`. -/

/-- Updating exactly the row a query finds (its primary key being unique)
makes the same query find the updated row. -/
theorem find?_map_update {α : Type} (p : α → Bool) (idOf : α → Nat)
    (l : List α) (u u' : α)
    (huniq : ∀ v ∈ l, idOf v = idOf u → v = u)
    (hfind : l.find? p = some u)
    (hsat : p u' = true)
    (hid : idOf u' = idOf u) :
    (l.map fun v => if idOf v = idOf u' then u' else v).find? p = some u' := by
  induction l with
  | nil => simp at hfind
  | cons a as ih =>
    by_cases ha : idOf a = idOf u
    · have hau : idOf a = idOf u' := by rw [ha, hid]
      simp only [List.map_cons, if_pos hau]
      exact List.find?_cons_of_pos _ hsat
    · have hpa : ¬ p a = true := by
        intro hcase
        rw [List.find?_cons_of_pos _ hcase] at hfind
        injection hfind with h
        exact ha (congrArg idOf h)
      have hau : ¬ idOf a = idOf u' := by
        intro hcon
        rw [hid] at hcon
        exact ha hcon
      rw [List.find?_cons_of_neg _ hpa] at hfind
      simp only [List.map_cons, if_neg hau]
      rw [List.find?_cons_of_neg _ hpa]
      exact ih (fun v hv hvid => huniq v (List.mem_cons_of_mem _ hv) hvid) hfind

/-- A `Save`-style in-place update keeps primary keys unique. -/
theorem map_update_uniq {α : Type} (idOf : α → Nat) (l : List α) (u' : α) :
    ∀ v ∈ (l.map fun w => if idOf w = idOf u' then u' else w),
      idOf v = idOf u' → v = u' := by
  intro v hv hvid
  rcases List.mem_map.mp hv with ⟨w, hw, rfl⟩
  by_cases hwid : idOf w = idOf u'
  · rw [if_pos hwid]
  · rw [if_neg hwid] at hvid
    exact absurd hvid hwid

/-- A query that misses the existing rows falls through to freshly created
ones. -/
theorem find?_append_of_none {α : Type} (p : α → Bool) (l₁ l₂ : List α)
    (h : l₁.find? p = none) : (l₁ ++ l₂).find? p = l₂.find? p := by
  induction l₁ with
  | nil => simp
  | cons a as ih =>
    have hpa : ¬ p a = true := by
      intro hcase
      rw [List.find?_cons_of_pos _ hcase] at h
      cases h
    rw [List.find?_cons_of_neg _ hpa] at h
    rw [List.cons_append, List.find?_cons_of_neg _ hpa]
    exact ih h

/-- Saving an updated copy of the row `GetByEmail` finds (numeric id unique,
email and deletion marker kept) makes the query find the updated copy. -/
theorem getUserByEmail_saveUser (db : DB) (email : String) (u u' : User)
    (huniq : ∀ v ∈ db.users, v.id = u.id → v = u)
    (hfind : db.getUserByEmail email = some u)
    (hdel : u'.deletedAt = none) (hml : u'.email = email) (hid : u'.id = u.id) :
    (db.saveUser u').getUserByEmail email = some u' := by
  unfold DB.getUserByEmail at hfind ⊢
  unfold DB.saveUser
  exact find?_map_update _ (fun v => v.id) db.users u u' huniq hfind
    (by simp [hdel, hml]) hid

/-- `Save` keeps the numeric primary key unique. -/
theorem saveUser_uniq (db : DB) (u' : User) :
    ∀ v ∈ (db.saveUser u').users, v.id = u'.id → v = u' := by
  unfold DB.saveUser
  exact map_update_uniq (fun v => v.id) db.users u'

/-- C6: after `GenerateAndSaveOTP` stamps an account with a one-time code,
`ResetPasswordWithOTP` fails whenever the supplied code differs from the
stored one or the current time is strictly after the stored expiry (15
minutes past generation) — in particular 15 minutes 1 second after
generation — while any attempt at or before the expiry with the right code
(in particular 14 minutes 59 seconds after generation) succeeds, replaces the
stored credential hash with the hash of the new credential, and clears the
stored code. -/
theorem reset_password_otp_boundary (db : DB) (email newPw : String)
    (salt seed : Nat) (t0 : Int) (u : User)
    (hmail : db.getUserByEmail email = some u)
    (huniq : ∀ v ∈ db.users, v.id = u.id → v = u)
    (otp : String) (db1 : DB)
    (hgen : db.generateAndSaveOTP email seed t0 = .ok (otp, db1)) :
    (∀ c t, c ≠ otp →
      ∃ e, db1.resetPasswordWithOTP email c newPw salt t = .error e) ∧
    (∀ t, t0 + 900 < t →
      ∃ e, db1.resetPasswordWithOTP email otp newPw salt t = .error e) ∧
    (∃ e, db1.resetPasswordWithOTP email otp newPw salt (t0 + 901) = .error e) ∧
    (∀ t, t ≤ t0 + 900 → ∃ db2,
      db1.resetPasswordWithOTP email otp newPw salt t = .ok db2 ∧
      ∃ u2, db2.getUserByEmail email = some u2 ∧
        u2.password = hashPassword salt newPw ∧ u2.otpCode = "") ∧
    (∃ db2, db1.resetPasswordWithOTP email otp newPw salt (t0 + 899) = .ok db2 ∧
      ∃ u2, db2.getUserByEmail email = some u2 ∧
        u2.password = hashPassword salt newPw ∧ u2.otpCode = "") := by
  have hm : db.users.find? (fun v => decide (v.deletedAt = none ∧ v.email = email))
      = some u := hmail
  have hpu := List.find?_some hm
  rw [decide_eq_true_eq] at hpu
  simp only [DB.generateAndSaveOTP, hmail] at hgen
  rw [Except.ok.injEq, Prod.mk.injEq] at hgen
  obtain ⟨hotp, hdb1⟩ := hgen
  subst hotp
  subst hdb1
  have hfound1 : (db.saveUser (otpStamped u seed t0)).getUserByEmail email =
      some (otpStamped u seed t0) :=
    getUserByEmail_saveUser db email u (otpStamped u seed t0) huniq hmail
      (by simp [otpStamped, hpu.1]) (by simp [otpStamped, hpu.2]) rfl
  have huniq1 := saveUser_uniq db (otpStamped u seed t0)
  have hcode : (otpStamped u seed t0).otpCode = generateOTP seed := rfl
  have hstamp : (otpStamped u seed t0).otpExpiresAt = t0 + 15 * 60 := rfl
  have hsucc : ∀ t, t ≤ t0 + 900 → ∃ db2,
      (db.saveUser (otpStamped u seed t0)).resetPasswordWithOTP email
        (generateOTP seed) newPw salt t = .ok db2 ∧
      ∃ u2, db2.getUserByEmail email = some u2 ∧
        u2.password = hashPassword salt newPw ∧ u2.otpCode = "" := by
    intro t ht
    have hexp : ¬ ((otpStamped u seed t0).otpExpiresAt < t) := by
      rw [hstamp]
      omega
    refine ⟨(db.saveUser (otpStamped u seed t0)).saveUser
        (resetStamped (otpStamped u seed t0) salt newPw), ?_,
      resetStamped (otpStamped u seed t0) salt newPw, ?_, rfl, rfl⟩
    · unfold DB.resetPasswordWithOTP DB.verifyOTP
      rw [hfound1]
      simp [hcode, hexp]
    · exact getUserByEmail_saveUser _ email (otpStamped u seed t0) _ huniq1 hfound1
        (by simpa [resetStamped, otpStamped] using hpu.1)
        (by simpa [resetStamped, otpStamped] using hpu.2) rfl
  have hlate : ∀ t, t0 + 900 < t →
      ∃ e, (db.saveUser (otpStamped u seed t0)).resetPasswordWithOTP email
        (generateOTP seed) newPw salt t = .error e := by
    intro t ht
    have hexp : (otpStamped u seed t0).otpExpiresAt < t := by
      rw [hstamp]
      omega
    refine ⟨"OTP has expired", ?_⟩
    unfold DB.resetPasswordWithOTP DB.verifyOTP
    rw [hfound1]
    simp [hcode, hexp]
  refine ⟨?_, hlate, hlate (t0 + 901) (by omega), hsucc, hsucc (t0 + 899) (by omega)⟩
  intro c t hc
  have hcc : ¬ ((otpStamped u seed t0).otpCode = c) := by
    rw [hcode]
    exact fun h => hc h.symm
  refine ⟨"invalid or expired OTP", ?_⟩
  unfold DB.resetPasswordWithOTP DB.verifyOTP
  rw [hfound1]
  simp [hcc]

/-- C3: for an authenticated caller whose account resolves, a resource that
exists but whose owning farm belongs to a different account is refused with
the 403 access-denied error, while an absent resource is refused with the
distinct 404 not-found error — for farms directly and for crops, livestock
and employees through their farm-identifier field. -/
theorem ownership_guard_denies_cross_tenant (db : DB)
    (farmID cropID livestockID employeeID userEmail : String)
    (hfid : farmID ≠ "") (hcid : cropID ≠ "") (hlid : livestockID ≠ "")
    (heid : employeeID ≠ "") (hmail : userEmail ≠ "") :
    (∀ f u, db.getFarmByFarmID farmID = some f →
      db.getUserByEmail userEmail = some u → f.userId ≠ u.userId →
      getFarmHandler db farmID userEmail =
        .error ⟨"access denied: farm does not belong to user", 403⟩) ∧
    (db.getFarmByFarmID farmID = none →
      getFarmHandler db farmID userEmail = .error ⟨"farm not found", 404⟩) ∧
    (∀ c u g, db.getCropByCropID cropID = some c →
      db.getUserByEmail userEmail = some u →
      db.getFarmByFarmID c.farmId = some g → g.userId ≠ u.userId →
      getCropHandler db cropID userEmail =
        .error ⟨"access denied: crop does not belong to user's farm", 403⟩) ∧
    (db.getCropByCropID cropID = none →
      getCropHandler db cropID userEmail = .error ⟨"crop not found", 404⟩) ∧
    (∀ l u g, db.getLivestockByLivestockID livestockID = some l →
      db.getUserByEmail userEmail = some u →
      db.getFarmByFarmID l.farmId = some g → g.userId ≠ u.userId →
      getLivestockHandler db livestockID userEmail =
        .error ⟨"access denied: livestock does not belong to user's farm", 403⟩) ∧
    (db.getLivestockByLivestockID livestockID = none →
      getLivestockHandler db livestockID userEmail =
        .error ⟨"livestock not found", 404⟩) ∧
    (∀ emp u g, db.getEmployeeByEmployeeID employeeID = some emp →
      db.getUserByEmail userEmail = some u →
      db.getFarmByFarmID emp.farmId = some g → g.userId ≠ u.userId →
      getEmployeeHandler db employeeID userEmail =
        .error ⟨"access denied: employee does not belong to user's farm", 403⟩) ∧
    (db.getEmployeeByEmployeeID employeeID = none →
      getEmployeeHandler db employeeID userEmail =
        .error ⟨"employee not found", 404⟩) := by
  refine ⟨?_, ?_, ?_, ?_, ?_, ?_, ?_, ?_⟩
  · intro f u hf hu hne
    simp [getFarmHandler, hfid, hmail, hf, hu, hne]
  · intro hf
    simp [getFarmHandler, hfid, hmail, hf]
  · intro c u g hc hu hg hne
    simp [getCropHandler, hcid, hmail, hc, hu, hg, hne]
  · intro hc
    simp [getCropHandler, hcid, hmail, hc]
  · intro l u g hl hu hg hne
    simp [getLivestockHandler, hlid, hmail, hl, hu, hg, hne]
  · intro hl
    simp [getLivestockHandler, hlid, hmail, hl]
  · intro emp u g hemp hu hg hne
    simp [getEmployeeHandler, heid, hmail, hemp, hu, hg, hne]
  · intro hemp
    simp [getEmployeeHandler, heid, hmail, hemp]

/-- C9 (amended): in the creation special case of the guard, a target farm
identifier that resolves to no farm is refused with the combined
`farm not found or access denied` error at HTTP 403 — the same kind and
status as the access-denied case — rather than with a distinct 404, and the
store is left unchanged. -/
theorem create_employee_missing_farm (db : DB) (req : EmployeeRequest)
    (farmID userEmail : String) (freshId : Nat) (freshEmployeeId : String)
    (hf : req.firstName ≠ "") (hl : req.lastName ≠ "") (hp : req.position ≠ "")
    (hfid : farmID ≠ "") (hmail : userEmail ≠ "")
    (u : User) (hu : db.getUserByEmail userEmail = some u)
    (hfarm : db.getFarmByFarmID farmID = none) :
    createEmployeeHandler db req farmID userEmail freshId freshEmployeeId =
      (.error ⟨"farm not found or access denied", 403⟩, db) := by
  simp [createEmployeeHandler, hf, hl, hp, hfid, hmail, hu, hfarm]

/-- C10: an owner's farm update overwrites exactly the non-empty string
fields and a strictly positive size, keeps every other field — including the
owning-account reference — unchanged, and therefore can never blank a stored
field or zero the stored size. -/
theorem update_farm_frame (db : DB) (req : FarmRequest) (farmID userEmail : String)
    (hfid : farmID ≠ "") (hmail : userEmail ≠ "")
    (f : Farm) (hfarm : db.getFarmByFarmID farmID = some f)
    (u : User) (hu : db.getUserByEmail userEmail = some u)
    (hown : f.userId = u.userId) :
    ∃ f', updateFarmHandler db req farmID userEmail = (.ok f', db.saveFarm f') ∧
      f'.name = (if req.name = "" then f.name else req.name) ∧
      f'.description = (if req.description = "" then f.description else req.description) ∧
      f'.location = (if req.location = "" then f.location else req.location) ∧
      f'.size = (if 0 < req.size then req.size else f.size) ∧
      f'.farmType = (if req.farmType = "" then f.farmType else req.farmType) ∧
      f'.status = (if req.status = "" then f.status else req.status) ∧
      f'.userId = f.userId ∧ f'.farmId = f.farmId ∧ f'.id = f.id ∧
      (f.name ≠ "" → f'.name ≠ "") ∧ (f.location ≠ "" → f'.location ≠ "") ∧
      (0 < f.size → 0 < f'.size) := by
  refine ⟨applyFarmUpdate req f, ?_, ?_, ?_, ?_, ?_, ?_, ?_, rfl, rfl, rfl, ?_, ?_, ?_⟩
  · simp [updateFarmHandler, hfid, hmail, hfarm, hu, hown]
  · simp [applyFarmUpdate, ite_not]
  · simp [applyFarmUpdate, ite_not]
  · simp [applyFarmUpdate, ite_not]
  · simp [applyFarmUpdate]
  · simp [applyFarmUpdate, ite_not]
  · simp [applyFarmUpdate, ite_not]
  · intro hne
    by_cases hcase : req.name = "" <;> simp [applyFarmUpdate, hcase, hne]
  · intro hne
    by_cases hcase : req.location = "" <;> simp [applyFarmUpdate, hcase, hne]
  · intro hpos
    by_cases hcase : 0 < req.size <;> simp [applyFarmUpdate, hcase, hpos]

/-- C8: soft deletion sets the deletion-marker timestamp in place (no row is
removed), and once every row carrying a public identifier is soft-deleted,
the guard lookup by that identifier misses and yields exactly the 404
not-found failure it yields for an identifier that never existed. -/
theorem soft_deleted_resource_not_found (db : DB) (cropID userEmail : String)
    (hcid : cropID ≠ "") (hmail : userEmail ≠ "")
    (hdel : ∀ c ∈ db.crops, c.cropId = cropID → c.deletedAt ≠ none) :
    db.getCropByCropID cropID = none ∧
    getCropHandler db cropID userEmail = .error ⟨"crop not found", 404⟩ ∧
    getCropHandler db cropID userEmail =
      getCropHandler
        { db with crops := db.crops.filter fun c => decide (c.cropId ≠ cropID) }
        cropID userEmail ∧
    (∀ db₀ : DB, ∀ i : Nat, ∀ now : Int,
      (db₀.cropDeleteByID i now).crops.length = db₀.crops.length) ∧
    (∀ db₀ : DB, ∀ i : Nat, ∀ now : Int,
      (db₀.livestockDeleteByID i now).livestock.length = db₀.livestock.length) ∧
    (∀ db₀ : DB, ∀ i : Nat, ∀ now : Int,
      (∀ c ∈ db₀.crops, c.cropId = cropID → c.id = i) →
      ∀ c ∈ (db₀.cropDeleteByID i now).crops, c.cropId = cropID →
        c.deletedAt ≠ none) := by
  have hnone : db.getCropByCropID cropID = none := by
    unfold DB.getCropByCropID
    rw [List.find?_eq_none]
    intro x hx hpx
    rw [decide_eq_true_eq] at hpx
    exact hdel x hx hpx.2 hpx.1
  have hnone2 :
      (({ db with crops := db.crops.filter fun c => decide (c.cropId ≠ cropID) } :
        DB)).getCropByCropID cropID = none := by
    unfold DB.getCropByCropID
    rw [List.find?_eq_none]
    intro x hx hpx
    rw [decide_eq_true_eq] at hpx
    have hxm := List.mem_filter.mp hx
    rw [decide_eq_true_eq] at hxm
    exact hxm.2 hpx.2
  have h404 : getCropHandler db cropID userEmail = .error ⟨"crop not found", 404⟩ := by
    simp [getCropHandler, hcid, hmail, hnone]
  have h404f :
      getCropHandler
        { db with crops := db.crops.filter fun c => decide (c.cropId ≠ cropID) }
        cropID userEmail = .error ⟨"crop not found", 404⟩ := by
    simp only [getCropHandler]
    rw [if_neg hcid, if_neg hmail, hnone2]
  refine ⟨hnone, h404, by rw [h404, h404f], ?_, ?_, ?_⟩
  · intro db₀ i now
    simp [DB.cropDeleteByID]
  · intro db₀ i now
    simp [DB.livestockDeleteByID]
  · intro db₀ i now hids c hc hcidc
    rcases List.mem_map.mp hc with ⟨w, hw, rfl⟩
    by_cases hcond : w.id = i ∧ w.deletedAt = none
    · rw [if_pos hcond]
      simp
    · rw [if_neg hcond] at hcidc ⊢
      intro hdelw
      exact hcond ⟨hids w hw hcidc, hdelw⟩

/-- C4 (amended): a login against an unregistered identity and a login with a
wrong password against a registered, active account produce literally the
same `invalid email or password` error (same message, same 401 status), so
those two causes are indistinguishable; a deactivated account, however, is
answered with the distinct `account is deactivated` message (still 401). -/
theorem login_error_uniformity (db : DB) (e1 p1 e2 p2 e3 p3 : String)
    (secretEnv : String) (expEnv : Option Int) (now : Int)
    (h1e : e1 ≠ "") (h1p : p1 ≠ "") (h2e : e2 ≠ "") (h2p : p2 ≠ "")
    (h3e : e3 ≠ "") (h3p : p3 ≠ "")
    (hu1 : db.getUserByEmail e1 = none)
    (u2 : User) (hu2 : db.getUserByEmail e2 = some u2) (hact : u2.active = true)
    (hpw : passwordMatches u2.password p2 = .ok false)
    (u3 : User) (hu3 : db.getUserByEmail e3 = some u3) (hinact : u3.active = false) :
    loginHandler db ⟨e1, p1⟩ secretEnv expEnv now =
      .error ⟨"invalid email or password", 401⟩ ∧
    loginHandler db ⟨e2, p2⟩ secretEnv expEnv now =
      .error ⟨"invalid email or password", 401⟩ ∧
    loginHandler db ⟨e1, p1⟩ secretEnv expEnv now =
      loginHandler db ⟨e2, p2⟩ secretEnv expEnv now ∧
    loginHandler db ⟨e3, p3⟩ secretEnv expEnv now =
      .error ⟨"account is deactivated", 401⟩ := by
  have hA : loginHandler db ⟨e1, p1⟩ secretEnv expEnv now =
      .error ⟨"invalid email or password", 401⟩ := by
    simp [loginHandler, h1e, h1p, hu1]
  have hB : loginHandler db ⟨e2, p2⟩ secretEnv expEnv now =
      .error ⟨"invalid email or password", 401⟩ := by
    simp [loginHandler, h2e, h2p, hu2, hact, hpw]
  refine ⟨hA, hB, by rw [hA, hB], ?_⟩
  simp [loginHandler, h3e, h3p, hu3, hinact]

/-- C7: once an identity is registered among the non-deleted accounts, a
second signup with the same identity fails with the 409 duplicate error and
returns the store unchanged, so the first account's stored credential hash —
and every other field of it — is untouched. -/
theorem duplicate_signup_conflict (db : DB) (req : SignupRequest)
    (freshId1 freshId2 : Nat) (uuid1 uuid2 : String) (salt1 salt2 : Nat)
    (hf : req.firstName ≠ "") (hl : req.lastName ≠ "") (he : req.email ≠ "")
    (hp : req.password ≠ "")
    (habsent : db.getUserByEmail req.email = none) :
    (∀ db' : DB, ∀ u : User, ∀ freshId : Nat, ∀ uuid : String, ∀ salt : Nat,
      db'.getUserByEmail req.email = some u →
      signupHandler db' req freshId uuid salt =
        (.error ⟨"user with this email already exists", 409⟩, db')) ∧
    ∃ respUser db1,
      signupHandler db req freshId1 uuid1 salt1 = (.ok respUser, db1) ∧
      ∃ u1, db1.getUserByEmail req.email = some u1 ∧
        u1.password = hashPassword salt1 req.password ∧
        signupHandler db1 req freshId2 uuid2 salt2 =
          (.error ⟨"user with this email already exists", 409⟩, db1) ∧
        db1.getUserByEmail req.email = some u1 := by
  have hfields : ¬ (req.firstName = "" ∨ req.lastName = "" ∨ req.email = "" ∨
      req.password = "") := by
    simp [hf, hl, he, hp]
  refine ⟨?_, ?_⟩
  · intro db' u freshId uuid salt hreg
    simp [signupHandler, hfields, hreg]
  have hfound :
      ({ db with users := db.users ++ [signupUserOf req freshId1 uuid1 salt1] } :
        DB).getUserByEmail req.email = some (signupUserOf req freshId1 uuid1 salt1) := by
    unfold DB.getUserByEmail
    rw [find?_append_of_none _ _ _ habsent]
    simp [signupUserOf]
  refine ⟨{ signupUserOf req freshId1 uuid1 salt1 with
      password := .empty, tempPassword := "" },
    { db with users := db.users ++ [signupUserOf req freshId1 uuid1 salt1] },
    ?_, signupUserOf req freshId1 uuid1 salt1, hfound, rfl, ?_, hfound⟩
  · simp [signupHandler, hfields, habsent]
  · simp [signupHandler, hfields, hfound]

/-! ## A concrete store for the closed evaluations: three accounts (one
inactive), one farm owned by the second account, and one crop, livestock and
employee row under that farm. -/

def userA : User :=
  { id := 1
    userId := "U1"
    firstName := "Ann"
    lastName := "Arbor"
    email := "a@x.com"
    password := hashPassword 1 "pw1"
    tempPassword := ""
    role := "Farmer"
    phoneNumber := ""
    address := ""
    active := true
    deletedAt := none
    otpCode := ""
    otpExpiresAt := 0 }

def userB : User :=
  { id := 2
    userId := "U2"
    firstName := "Bob"
    lastName := "Barn"
    email := "b@x.com"
    password := hashPassword 2 "pw2"
    tempPassword := ""
    role := "Farmer"
    phoneNumber := ""
    address := ""
    active := true
    deletedAt := none
    otpCode := ""
    otpExpiresAt := 0 }

def userC : User :=
  { id := 3
    userId := "U3"
    firstName := "Cem"
    lastName := "Close"
    email := "c@x.com"
    password := hashPassword 3 "pw3"
    tempPassword := ""
    role := "Farmer"
    phoneNumber := ""
    address := ""
    active := false
    deletedAt := none
    otpCode := ""
    otpExpiresAt := 0 }

def farmB : Farm :=
  { id := 1
    farmId := "F1"
    name := "Sunshine Farm"
    description := "organic"
    location := "Green Valley"
    size := 50
    farmType := "Mixed"
    status := "Active"
    userId := "U2"
    deletedAt := none }

def cropB : Crop :=
  { id := 1
    cropId := "C1"
    farmId := "F1"
    name := "Tomatoes"
    plantingDate := none
    harvestDate := none
    quantity := 100
    status := "Growing"
    notes := ""
    deletedAt := none }

def livestockB : Livestock :=
  { id := 1
    livestockId := "L1"
    farmId := "F1"
    animalType := "Cattle"
    count := 25
    acquisitionDate := none
    healthStatus := "Healthy"
    notes := ""
    deletedAt := none }

def employeeB : Employee :=
  { id := 1
    employeeId := "E1"
    userId := none
    farmId := "F1"
    firstName := "Jane"
    lastName := "Smith"
    position := "Farm Manager"
    salary := 50000
    hireDate := none
    contactInfo := ""
    status := "Active"
    deletedAt := none }

def dbW : DB :=
  { users := [userA, userB, userC]
    farms := [farmB]
    crops := [cropB]
    livestock := [livestockB]
    employees := [employeeB] }

/-- The store after `GenerateAndSaveOTP` for `userA` with seed 5 at time 0. -/
def dbWotp : DB := dbW.saveUser (otpStamped userA 5 0)

/-- A second, soft-deleted crop row, and the store holding it. -/
def cropDeleted : Crop := { cropB with id := 2, cropId := "C2", deletedAt := some 100 }

def dbWdel : DB := { dbW with crops := [cropB, cropDeleted] }

def dbEmpty : DB :=
  { users := []
    farms := []
    crops := []
    livestock := []
    employees := [] }

def reqSignup : SignupRequest :=
  { firstName := "John"
    lastName := "Doe"
    email := "j@x.com"
    password := "password123"
    role := "Farmer"
    phoneNumber := ""
    address := "" }

/-- A store that already holds the account `reqSignup` would register. -/
def dbDup : DB := { dbEmpty with users := [signupUserOf reqSignup 1 "W1" 1] }

def reqEmp : EmployeeRequest :=
  { userId := none
    firstName := "Jane"
    lastName := "Smith"
    position := "Farm Manager"
    salary := 0
    hireDate := none
    contactInfo := ""
    status := "" }

def reqFarmUpd : FarmRequest :=
  { name := ""
    description := "New description"
    location := ""
    size := 0
    farmType := ""
    status := "Inactive" }

/-- C3 witness: owner mismatches are refused with 403 for all four resource
kinds, and an absent farm identifier with 404, on the concrete store. -/
theorem ownership_guard_denies_cross_tenant_witness :
    getFarmHandler dbW "F1" "a@x.com" =
      .error ⟨"access denied: farm does not belong to user", 403⟩ ∧
    getCropHandler dbW "C1" "a@x.com" =
      .error ⟨"access denied: crop does not belong to user's farm", 403⟩ ∧
    getLivestockHandler dbW "L1" "a@x.com" =
      .error ⟨"access denied: livestock does not belong to user's farm", 403⟩ ∧
    getEmployeeHandler dbW "E1" "a@x.com" =
      .error ⟨"access denied: employee does not belong to user's farm", 403⟩ ∧
    getFarmHandler dbW "F9" "a@x.com" = .error ⟨"farm not found", 404⟩ := by
  have h := ownership_guard_denies_cross_tenant dbW "F1" "C1" "L1" "E1" "a@x.com"
    (by decide) (by decide) (by decide) (by decide) (by decide)
  have h9 := ownership_guard_denies_cross_tenant dbW "F9" "C1" "L1" "E1" "a@x.com"
    (by decide) (by decide) (by decide) (by decide) (by decide)
  exact ⟨h.1 farmB userA rfl rfl (by decide),
    h.2.2.1 cropB userA farmB rfl rfl rfl (by decide),
    h.2.2.2.2.1 livestockB userA farmB rfl rfl rfl (by decide),
    h.2.2.2.2.2.2.1 employeeB userA farmB rfl rfl rfl (by decide),
    h9.2.1 rfl⟩

/-- C4 counterexample: on the concrete store, the login error for a
deactivated account differs in message from the login error for an unknown
identity, refuting the claim that the inactive cause yields the same
InvalidCredentials error. -/
theorem login_inactive_error_differs :
    loginHandler dbW ⟨"c@x.com", "pw3"⟩ "s3cret" none 0 =
      .error ⟨"account is deactivated", 401⟩ ∧
    loginHandler dbW ⟨"zz@x.com", "pw3"⟩ "s3cret" none 0 =
      .error ⟨"invalid email or password", 401⟩ ∧
    (⟨"account is deactivated", 401⟩ : ApiError) ≠
      ⟨"invalid email or password", 401⟩ := by
  refine ⟨rfl, rfl, by decide⟩

/-- C4 witness: the unknown-identity and wrong-password errors coincide, and
the inactive-account error is the distinct deactivation message. -/
theorem login_error_uniformity_witness :
    loginHandler dbW ⟨"zz@x.com", "nope"⟩ "s3cret" none 0 =
      .error ⟨"invalid email or password", 401⟩ ∧
    loginHandler dbW ⟨"b@x.com", "wrong"⟩ "s3cret" none 0 =
      .error ⟨"invalid email or password", 401⟩ ∧
    loginHandler dbW ⟨"zz@x.com", "nope"⟩ "s3cret" none 0 =
      loginHandler dbW ⟨"b@x.com", "wrong"⟩ "s3cret" none 0 ∧
    loginHandler dbW ⟨"c@x.com", "pw3"⟩ "s3cret" none 0 =
      .error ⟨"account is deactivated", 401⟩ :=
  login_error_uniformity dbW "zz@x.com" "nope" "b@x.com" "wrong" "c@x.com" "pw3"
    "s3cret" none 0 (by decide) (by decide) (by decide) (by decide) (by decide)
    (by decide) rfl userB rfl rfl rfl userC rfl rfl

/-- C5 (code bug): on the concrete store, the forgot-password response for a
registered identity and the one for an unregistered identity both report
success but carry different messages, so the response does reveal whether
the account exists — contradicting both the claim and the handler's own
do-not-reveal comment. -/
theorem forgot_password_response_differs :
    (forgotPasswordHandler dbW "b@x.com" 0 0).1 =
      .ok ⟨true, "Password reset code has been sent to your email"⟩ ∧
    (forgotPasswordHandler dbW "zz@x.com" 0 0).1 =
      .ok ⟨true, "If the email exists, a password reset code has been sent"⟩ ∧
    (⟨true, "Password reset code has been sent to your email"⟩ : AuthResponse) ≠
      ⟨true, "If the email exists, a password reset code has been sent"⟩ := by
  refine ⟨rfl, rfl, by decide⟩

/-- C6 witness: with the code generated at time 0, a wrong code fails, the
right code fails at 901 seconds, and the right code at 899 seconds succeeds,
rewrites the stored hash and clears the code. -/
theorem reset_password_otp_boundary_witness :
    (∃ e, dbWotp.resetPasswordWithOTP "a@x.com" "999999" "newpw" 9 10 = .error e) ∧
    (∃ e, dbWotp.resetPasswordWithOTP "a@x.com" (generateOTP 5) "newpw" 9 901 =
      .error e) ∧
    (∃ db2, dbWotp.resetPasswordWithOTP "a@x.com" (generateOTP 5) "newpw" 9 899 =
      .ok db2 ∧
      ∃ u2, db2.getUserByEmail "a@x.com" = some u2 ∧
        u2.password = hashPassword 9 "newpw" ∧ u2.otpCode = "") := by
  have h := reset_password_otp_boundary dbW "a@x.com" "newpw" 9 5 0 userA rfl
    (by decide) (generateOTP 5) dbWotp rfl
  exact ⟨h.1 "999999" 10 (by decide), h.2.2.1, h.2.2.2.2⟩

/-- C7 witness: signing up the same identity twice on an initially empty
store — the second call is the 409 duplicate error and the store, with the
first account's hash, is unchanged. -/
theorem duplicate_signup_conflict_witness :
    signupHandler dbDup reqSignup 2 "W2" 2 =
      (.error ⟨"user with this email already exists", 409⟩, dbDup) ∧
    ∃ respUser db1,
      signupHandler dbEmpty reqSignup 1 "W1" 1 = (.ok respUser, db1) ∧
      ∃ u1, db1.getUserByEmail reqSignup.email = some u1 ∧
        u1.password = hashPassword 1 reqSignup.password ∧
        signupHandler db1 reqSignup 2 "W2" 2 =
          (.error ⟨"user with this email already exists", 409⟩, db1) ∧
        db1.getUserByEmail reqSignup.email = some u1 := by
  have h := duplicate_signup_conflict dbEmpty reqSignup 1 2 "W1" "W2" 1 2
    (by decide) (by decide) (by decide) (by decide) rfl
  exact ⟨h.1 dbDup (signupUserOf reqSignup 1 "W1" 1) 2 "W2" 2 rfl, h.2⟩

/-- C8 witness: the soft-deleted crop row `C2` is present in the store but
invisible: the lookup misses and the handler answers 404. -/
theorem soft_deleted_resource_not_found_witness :
    dbWdel.getCropByCropID "C2" = none ∧
    getCropHandler dbWdel "C2" "b@x.com" = .error ⟨"crop not found", 404⟩ := by
  have h := soft_deleted_resource_not_found dbWdel "C2" "b@x.com"
    (by decide) (by decide) (by decide)
  exact ⟨h.1, h.2.1⟩

/-- C9 counterexample: with a registered caller and a farm identifier that
resolves to no farm, `CreateEmployeeHandler` answers with HTTP status 403
(the combined farm-not-found-or-access-denied error), not the 404 the claim
asserts for the ResourceNotFound kind. -/
theorem create_employee_missing_farm_counterexample :
    (createEmployeeHandler dbW reqEmp "F9" "a@x.com" 9 "E9").1 =
      .error ⟨"farm not found or access denied", 403⟩ ∧
    ∀ e : ApiError,
      (createEmployeeHandler dbW reqEmp "F9" "a@x.com" 9 "E9").1 = .error e →
        e.status ≠ 404 := by
  refine ⟨rfl, ?_⟩
  intro e he
  have h0 : (Except.error (⟨"farm not found or access denied", 403⟩ : ApiError) :
      Except ApiError Employee) = .error e := he
  injection h0 with h1
  rw [← h1]
  decide

/-- C9 witness: the amended behaviour at the concrete store. -/
theorem create_employee_missing_farm_witness :
    createEmployeeHandler dbW reqEmp "F9" "a@x.com" 9 "E9" =
      (.error ⟨"farm not found or access denied", 403⟩, dbW) :=
  create_employee_missing_farm dbW reqEmp "F9" "a@x.com" 9 "E9"
    (by decide) (by decide) (by decide) (by decide) (by decide) userA rfl rfl

/-- C10 witness: an owner update with empty name/location/farmType, zero
size and a set description/status keeps the untouched fields and the owner
reference. -/
theorem update_farm_frame_witness :
    ∃ f', updateFarmHandler dbW reqFarmUpd "F1" "b@x.com" = (.ok f', dbW.saveFarm f') ∧
      f'.name = (if reqFarmUpd.name = "" then farmB.name else reqFarmUpd.name) ∧
      f'.description =
        (if reqFarmUpd.description = "" then farmB.description
         else reqFarmUpd.description) ∧
      f'.location = (if reqFarmUpd.location = "" then farmB.location
         else reqFarmUpd.location) ∧
      f'.size = (if 0 < reqFarmUpd.size then reqFarmUpd.size else farmB.size) ∧
      f'.farmType = (if reqFarmUpd.farmType = "" then farmB.farmType
         else reqFarmUpd.farmType) ∧
      f'.status = (if reqFarmUpd.status = "" then farmB.status
         else reqFarmUpd.status) ∧
      f'.userId = farmB.userId ∧ f'.farmId = farmB.farmId ∧ f'.id = farmB.id ∧
      (farmB.name ≠ "" → f'.name ≠ "") ∧ (farmB.location ≠ "" → f'.location ≠ "") ∧
      (0 < farmB.size → 0 < f'.size) :=
  update_farm_frame dbW reqFarmUpd "F1" "b@x.com" (by decide) (by decide)
    farmB rfl userB rfl rfl

end Farm4U
